import Mathlib

/-!
Shallow embedding of `src/backend/server.py` (FastAPI student-management backend).

Modelling conventions:
* Timestamps are `Nat` (seconds). `datetime.now(timezone.utc)` calls are modelled by an
  explicit clock: a single `now : Nat` argument when the handler reads the clock once, and
  a function `clk : Nat → Nat` giving the successive readings when it reads it several
  times (`clk 0` is the first reading, `clk 1` the second). `isoformat` round-trips are
  injective on instants, so the string/`datetime` conversions in the handlers are dropped
  and instants are kept as `Nat` end to end.
* `uuid.uuid4()` is an explicit `newId : String` argument.
* bcrypt hashing and verification (`pwd_context.hash` / `pwd_context.verify`) are oracle
  parameters `hash : String → String` and `verify : String → String → Bool`.
* The MongoDB collections are lists in insertion order; `find_one` is first match,
  `insert_one` appends, `update_one` rewrites the first match, `delete_one` removes the
  first match and reports the deleted count. `find(query).to_list(1000)` is filter
  followed by `take 1000`.
* An `HTTPException` raised by a handler or one of its dependencies is `Except.error`;
  since raising aborts the handler before any later store write, the error case carries
  no store state.
* FastAPI resolves the `Depends` chain (bearer auth, `require_admin`) before validating
  the request body, so handlers with a body take `Option body` and check the role first;
  `none` stands for a body that fails validation (HTTP 422).
-/

set_option linter.unusedVariables false

namespace StudentApp

/-- HTTP error raised via `HTTPException(status_code, detail)`. -/
structure HTTPError where
  status : Nat
  detail : String
deriving Repr, DecidableEq

/-- Stored user document: the `User` model fields plus the `password_hash` key that
`register` adds to the dict before `insert_one` (server.py:141-145). -/
structure UserDoc where
  id : String
  email : String
  name : String
  role : String
  created_at : Nat
  password_hash : String
deriving Repr, DecidableEq

/-- Public `User` response model (server.py:88-94): no password hash field. -/
structure User where
  id : String
  email : String
  name : String
  role : String
  created_at : Nat
deriving Repr, DecidableEq

/-- Student document; the `Student` model (server.py:101-110) is also the stored shape. -/
structure Student where
  id : String
  nim : String
  nama : String
  email : String
  program_studi : String
  angkatan : Int
  created_at : Nat
  updated_at : Nat
deriving Repr, DecidableEq

/-- The two MongoDB collections used by the app (`db.users`, `db.students`). -/
structure DB where
  users : List UserDoc
  students : List Student
deriving Repr, DecidableEq

/-- Mongo `find_one(filter)`: first document matching the filter, in store order. -/
def findOne {α : Type} (p : α → Bool) (l : List α) : Option α :=
  l.find? p

/-- Mongo `update_one(filter, set)`: rewrite the first matching document only. -/
def updateOne {α : Type} (p : α → Bool) (f : α → α) : List α → List α
  | [] => []
  | x :: xs => if p x then f x :: xs else x :: updateOne p f xs

/-- Mongo `delete_one(filter)`: remove the first matching document; return
`(deleted_count, remaining collection)`. -/
def deleteOne {α : Type} (p : α → Bool) : List α → Nat × List α
  | [] => (0, [])
  | x :: xs =>
    if p x then (1, xs)
    else
      let r := deleteOne p xs
      (r.1, x :: r.2)

/-! ## Credential service (JWT, server.py:42-56) -/

/-- Claims payload of a token: `{"sub": email, "exp": instant}` (server.py:43-45). -/
structure JwtClaims where
  sub : Option String
  exp : Nat
deriving Repr, DecidableEq

/-- A bearer token as transmitted: either a well-formed token signed with some key, or a
byte string that is not a JWT at all. -/
inductive JwtToken where
  | signed (claims : JwtClaims) (key : String)
  | garbage (raw : String)
deriving Repr, DecidableEq

/-- Outcome of PyJWT `jwt.decode(token, key, algorithms=[...])`: the claims, or
`ExpiredSignatureError`, or some other `InvalidTokenError` (bad signature / bad format).
PyJWT treats a token as expired exactly when `exp <= now` (integer seconds, zero leeway). -/
inductive JwtDecodeResult where
  | ok (claims : JwtClaims)
  | expiredSignature
  | invalidToken
deriving Repr, DecidableEq

def jwtDecode (key : String) (now : Nat) : JwtToken → JwtDecodeResult
  | .garbage _ => .invalidToken
  | .signed claims k =>
    if k ≠ key then .invalidToken
    else if claims.exp ≤ now then .expiredSignature
    else .ok claims

/-- `ACCESS_TOKEN_EXPIRE_MINUTES = 60 * 24  # 24 hours` (server.py:29). -/
def ACCESS_TOKEN_EXPIRE_MINUTES : Nat := 60 * 24

/-- `create_access_token` (server.py:42-47) for the one payload the app uses,
`{"sub": email}`: sets `exp` to now plus 24 hours and signs with the process key. -/
def create_access_token (key : String) (now : Nat) (sub : String) : JwtToken :=
  .signed { sub := some sub, exp := now + ACCESS_TOKEN_EXPIRE_MINUTES * 60 } key

/-- Result of running a handler fragment that may raise an `HTTPException` or let some
other Python exception escape (which FastAPI surfaces as HTTP 500). -/
inductive PyResult (α : Type) where
  | ok (a : α)
  | httpError (e : HTTPError)
  | unhandled (exc : String)
deriving Repr, DecidableEq

/-- `decode_token` (server.py:49-56). The first except clause catches
`jwt.ExpiredSignatureError` and raises 401 "Token has expired". The second clause is
written `except jwt.JWTError:`, but the installed library is PyJWT (module `jwt`;
`jwt.encode`/`jwt.decode` module-level API), which defines no attribute `JWTError`
(`JWTError` is python-jose's name). Python evaluates the exception class of an except
clause only when an exception is being matched, so any non-expiry decode failure makes
the clause itself raise `AttributeError`, which escapes the handler. -/
def decode_token (key : String) (now : Nat) (token : JwtToken) : PyResult JwtClaims :=
  match jwtDecode key now token with
  | .ok payload => .ok payload
  | .expiredSignature => .httpError ⟨401, "Token has expired"⟩
  | .invalidToken => .unhandled "AttributeError: module jwt has no attribute JWTError"

/-! ## Authentication gate (server.py:59-75) -/

/-- `require_admin` (server.py:72-75): 403 unless the resolved user's role is "admin";
otherwise passes the user dict through unchanged. -/
def require_admin (current_user : UserDoc) : Except HTTPError UserDoc :=
  if current_user.role == "admin" then .ok current_user
  else .error ⟨403, "Admin access required"⟩

/-! ## User account layer (server.py:78-176) -/

/-- `UserRegister` request body (server.py:78-82): the role is a plain string defaulting
to "user"; no constraint ties it to the set in the comment. -/
structure UserRegister where
  email : String
  password : String
  name : String
  role : String := "user"
deriving Repr, DecidableEq

/-- `UserLogin` request body (server.py:84-86). -/
structure UserLogin where
  email : String
  password : String
deriving Repr, DecidableEq

/-- Rebuild the public `User` from a stored dict, dropping `password_hash`
(`User(**{k: v for k, v in user.items() if k != 'password_hash'})`). -/
def User.ofDoc (d : UserDoc) : User :=
  { id := d.id, email := d.email, name := d.name, role := d.role,
    created_at := d.created_at }

/-- `register` (server.py:127-146): existence pre-check on email, then build the `User`,
attach the password hash, insert, and return the hash-free `User`. -/
def register (hash : String → String) (newId : String) (now : Nat)
    (user_data : UserRegister) (db : DB) : Except HTTPError (User × DB) :=
  match findOne (fun d => d.email == user_data.email) db.users with
  | some _ => .error ⟨400, "Email already registered"⟩
  | none =>
    let user_obj : User :=
      { id := newId, email := user_data.email, name := user_data.name,
        role := user_data.role, created_at := now }
    let user_dict : UserDoc :=
      { id := user_obj.id, email := user_obj.email, name := user_obj.name,
        role := user_obj.role, created_at := user_obj.created_at,
        password_hash := hash user_data.password }
    .ok (user_obj, { db with users := db.users ++ [user_dict] })

/-- `Token` response model (server.py:96-99). -/
structure TokenResp where
  access_token : JwtToken
  token_type : String
  user : User
deriving Repr, DecidableEq

/-- `login` (server.py:148-170): look the user up by email, verify the password against
the stored hash, and on success issue a token; both failure branches raise the same
401 "Invalid email or password". -/
def login (verify : String → String → Bool) (key : String) (now : Nat)
    (user_data : UserLogin) (db : DB) : Except HTTPError TokenResp :=
  match findOne (fun d => d.email == user_data.email) db.users with
  | none => .error ⟨401, "Invalid email or password"⟩
  | some user =>
    if !(verify user_data.password user.password_hash) then
      .error ⟨401, "Invalid email or password"⟩
    else
      .ok { access_token := create_access_token key now user.email,
            token_type := "bearer",
            user := User.ofDoc user }

/-- `get_me` (server.py:172-176): return the already-resolved identity, hash dropped. -/
def get_me (current_user : UserDoc) : User :=
  User.ofDoc current_user

/-! ## Response serialization (for the password-hash exposure claim) -/

/-- JSON scalar values appearing in these documents. -/
inductive JVal where
  | s (v : String)
  | n (v : Nat)
deriving Repr, DecidableEq

/-- Keys/values serialized for a `User` response (`response_model=User` serializes
exactly the declared model fields). -/
def User.fields (u : User) : List (String × JVal) :=
  [("id", .s u.id), ("email", .s u.email), ("name", .s u.name),
   ("role", .s u.role), ("created_at", .n u.created_at)]

/-- Keys/values of the stored user document, which does include the hash. -/
def UserDoc.fields (d : UserDoc) : List (String × JVal) :=
  [("id", .s d.id), ("email", .s d.email), ("name", .s d.name),
   ("role", .s d.role), ("created_at", .n d.created_at),
   ("password_hash", .s d.password_hash)]

/-! ## Record store access layer (server.py:112-269) -/

/-- `StudentCreate` request body (server.py:112-117). -/
structure StudentCreate where
  nim : String
  nama : String
  email : String
  program_studi : String
  angkatan : Int
deriving Repr, DecidableEq

/-- `StudentUpdate` request body (server.py:119-124): every field optional, defaulting
to `None`; `model_dump` plus the non-None filter means `none` is "absent". -/
structure StudentUpdate where
  nim : Option String := none
  nama : Option String := none
  email : Option String := none
  program_studi : Option String := none
  angkatan : Option Int := none
deriving Repr, DecidableEq

/-- `create_student` (server.py:179-192). The `Depends(require_admin)` chain runs before
body validation, so the role gate fires first; an invalid body (`none`) is 422. The
`Student` model fills `created_at` and `updated_at` from two separate
`datetime.now(timezone.utc)` default factories, in field order: `clk 0` then `clk 1`. -/
def create_student (clk : Nat → Nat) (newId : String) (body : Option StudentCreate)
    (current_user : UserDoc) (db : DB) : Except HTTPError (Student × DB) :=
  match require_admin current_user with
  | .error e => .error e
  | .ok _ =>
    match body with
    | none => .error ⟨422, "Unprocessable Entity"⟩
    | some student_data =>
      match findOne (fun s => s.nim == student_data.nim) db.students with
      | some _ => .error ⟨400, "NIM already exists"⟩
      | none =>
        let student_obj : Student :=
          { id := newId, nim := student_data.nim, nama := student_data.nama,
            email := student_data.email, program_studi := student_data.program_studi,
            angkatan := student_data.angkatan,
            created_at := clk 0, updated_at := clk 1 }
        .ok (student_obj, { db with students := db.students ++ [student_obj] })

/-! ### Mongo regex matching, for `get_students`

The handler passes the raw query strings to the store as
`{"$regex": pattern, "$options": "i"}`. MongoDB interprets the pattern as a PCRE regular
expression, matched unanchored (anywhere in the field) and caselessly under option `i`.
We model the PCRE fragment in which every character is a literal except `.`, which
matches any single character; `regexLiteral` below recognizes the patterns containing no
PCRE metacharacter at all, for which regex matching coincides with substring search.
Caseless matching of ASCII patterns is modelled by case-folding both sides. -/

/-- Anchored match of the pattern against a prefix of the text (`.` is a wildcard). -/
def pcreAccept : List Char → List Char → Bool
  | [], _ => true
  | _ :: _, [] => false
  | p :: ps, c :: cs => (p == '.' || p == c) && pcreAccept ps cs

/-- Unanchored regex search: try the anchored match at every position. -/
def pcreSearch : List Char → List Char → Bool
  | p, [] => pcreAccept p []
  | p, c :: cs => pcreAccept p (c :: cs) || pcreSearch p cs

/-- Anchored literal match: the pattern is a prefix of the text. -/
def litAccept : List Char → List Char → Bool
  | [], _ => true
  | _ :: _, [] => false
  | p :: ps, c :: cs => p == c && litAccept ps cs

/-- Unanchored literal search: the pattern occurs somewhere in the text. -/
def litSearch : List Char → List Char → Bool
  | p, [] => litAccept p []
  | p, c :: cs => litAccept p (c :: cs) || litSearch p cs

/-- Case folding, as option "i" applies it to ASCII patterns and fields. -/
def lowerStr (s : String) : List Char :=
  s.data.map Char.toLower

/-- Mongo `$regex` with `$options: "i"`, on the modelled PCRE fragment. -/
def regexMatchCI (pattern text : String) : Bool :=
  pcreSearch (lowerStr pattern) (lowerStr text)

/-- The PCRE metacharacters. -/
def pcreMeta : List Char := "\\^$.|?*+()[]\x7b\x7d".toList

/-- Patterns with no PCRE metacharacter (checked on the case-folded pattern; case
folding maps no character to a metacharacter). For these, regex match is substring
match. -/
def regexLiteral (q : String) : Bool :=
  (lowerStr q).all (fun c => !(pcreMeta.contains c))

/-- Case-insensitive substring occurrence, stated structurally: the case-folded needle
occurs contiguously inside the case-folded haystack. -/
def IsSubstrCI (needle hay : String) : Prop :=
  ∃ pre post, lowerStr hay = pre ++ lowerStr needle ++ post

/-- The `$or` search condition of `get_students` (server.py:203-208), with Python
truthiness: `if search:` skips the filter for `None` and for the empty string. -/
def searchCond (search : Option String) (s : Student) : Bool :=
  match search with
  | none => true
  | some q =>
    if q.isEmpty then true
    else regexMatchCI q s.nama || regexMatchCI q s.nim || regexMatchCI q s.email

/-- The `program_studi` condition of `get_students` (server.py:210-211). -/
def programStudiCond (program_studi : Option String) (s : Student) : Bool :=
  match program_studi with
  | none => true
  | some q => if q.isEmpty then true else regexMatchCI q s.program_studi

/-- The `angkatan` condition of `get_students` (server.py:213-214): `if angkatan:` is
false for `None` and for `0`, so an `angkatan=0` query adds no filter. -/
def angkatanCond (angkatan : Option Int) (s : Student) : Bool :=
  match angkatan with
  | none => true
  | some v => if v == 0 then true else s.angkatan == v

/-- `get_students` (server.py:194-224): build the query dict from the given filters and
run `find(query).to_list(1000)`; the store returns the documents satisfying the
conjunction of the query's conditions, in store order, at most 1000 of them. -/
def get_students (search program_studi : Option String) (angkatan : Option Int)
    (current_user : UserDoc) (db : DB) : List Student :=
  (db.students.filter (fun s =>
      searchCond search s && programStudiCond program_studi s && angkatanCond angkatan s)).take 1000

/-- Effect of the `$set` update document built by `update_student` (server.py:249-252):
the non-None fields of the payload, plus a refreshed `updated_at`. -/
def applyUpdate (student_data : StudentUpdate) (now : Nat) (s : Student) : Student :=
  { s with
    nim := student_data.nim.getD s.nim,
    nama := student_data.nama.getD s.nama,
    email := student_data.email.getD s.email,
    program_studi := student_data.program_studi.getD s.program_studi,
    angkatan := student_data.angkatan.getD s.angkatan,
    updated_at := now }

/-- Python truthiness of the `update_data` dict: non-empty iff some field is non-None. -/
def hasAnyField (student_data : StudentUpdate) : Bool :=
  student_data.nim.isSome || student_data.nama.isSome || student_data.email.isSome ||
  student_data.program_studi.isSome || student_data.angkatan.isSome

/-- `update_student` (server.py:239-262): admin gate, 404 existence check, `$set` of the
provided fields plus `updated_at` when at least one field is provided (no write
otherwise), then re-read and return. The final branch models the Python `TypeError`
that subscripting `None` would raise if the re-read found nothing; it is unreachable. -/
def update_student (now : Nat) (student_id : String) (body : Option StudentUpdate)
    (current_user : UserDoc) (db : DB) : Except HTTPError (Student × DB) :=
  match require_admin current_user with
  | .error e => .error e
  | .ok _ =>
    match body with
    | none => .error ⟨422, "Unprocessable Entity"⟩
    | some student_data =>
      match findOne (fun s => s.id == student_id) db.students with
      | none => .error ⟨404, "Student not found"⟩
      | some _ =>
        let db' : DB :=
          if hasAnyField student_data then
            let written :=
              updateOne (fun s => s.id == student_id) (applyUpdate student_data now)
                db.students
            { db with students := written }
          else db
        match findOne (fun s => s.id == student_id) db'.students with
        | some updated_student => .ok (updated_student, db')
        | none => .error ⟨500, "TypeError: NoneType is not subscriptable"⟩

/-- Response body of a successful delete. -/
structure Message where
  message : String
deriving Repr, DecidableEq

/-- `delete_student` (server.py:264-269): admin gate, `delete_one` by id, 404 when the
deleted count is zero. -/
def delete_student (student_id : String) (current_user : UserDoc) (db : DB) :
    Except HTTPError (Message × DB) :=
  match require_admin current_user with
  | .error e => .error e
  | .ok _ =>
    let result := deleteOne (fun s => s.id == student_id) db.students
    if result.1 == 0 then .error ⟨404, "Student not found"⟩
    else .ok (⟨"Student deleted successfully"⟩, { db with students := result.2 })

/-! ## The listing predicate stated from the amended claim C3 -/

/-- Matching predicate written from the amended claim: a record matches a non-empty
search string iff that string, as a caseless regular expression, matches nama or nim or
email; a non-empty `program_studi` must regex-match the `program_studi` field; a nonzero
`angkatan` must equal the stored year exactly; an absent filter, an empty search or
program string, and `angkatan = 0` constrain nothing; the given conditions conjoin. -/
def AmendedMatch (search program_studi : Option String) (angkatan : Option Int)
    (s : Student) : Prop :=
  (∀ q, search = some q → q ≠ "" →
    (regexMatchCI q s.nama = true ∨ regexMatchCI q s.nim = true ∨
      regexMatchCI q s.email = true)) ∧
  (∀ q, program_studi = some q → q ≠ "" → regexMatchCI q s.program_studi = true) ∧
  (∀ v, angkatan = some v → v ≠ 0 → s.angkatan = v)

/-! ## Concrete records used in the closed evaluation theorems -/

def adminDoc : UserDoc :=
  { id := "u1", email := "admin@campus.io", name := "Ad Min", role := "admin",
    created_at := 0, password_hash := "h0" }

def plainDoc : UserDoc :=
  { id := "u2", email := "user@campus.io", name := "Us Er", role := "user",
    created_at := 0, password_hash := "h1" }

def stAlice : Student :=
  { id := "s1", nim := "A1", nama := "Alice", email := "alice@campus.io",
    program_studi := "TI", angkatan := 2021, created_at := 0, updated_at := 0 }

def stBob : Student :=
  { id := "s2", nim := "B2", nama := "Bob", email := "bob@campus.io",
    program_studi := "SI", angkatan := 2020, created_at := 0, updated_at := 0 }

def stAbc : Student :=
  { id := "s3", nim := "C3", nama := "abc", email := "abc@campus.io",
    program_studi := "TI", angkatan := 2019, created_at := 0, updated_at := 0 }

def stNina : Student :=
  { id := "s9", nim := "N9", nama := "Nina", email := "nina@x.io",
    program_studi := "TI", angkatan := 2022, created_at := 0, updated_at := 1 }

/-! ## Helper lemmas about the store primitives -/

theorem findOne_mem {α : Type} {p : α → Bool} {l : List α} {x : α}
    (h : findOne p l = some x) : x ∈ l :=
  List.mem_of_find?_eq_some h

theorem findOne_sat {α : Type} {p : α → Bool} {l : List α} {x : α}
    (h : findOne p l = some x) : p x = true :=
  List.find?_some h

theorem findOne_updateOne {α : Type} {p : α → Bool} {f : α → α} {l : List α} {x : α}
    (hf : ∀ a, p a = true → p (f a) = true) (h : findOne p l = some x) :
    findOne p (updateOne p f l) = some (f x) := by
  induction l with
  | nil => simp [findOne] at h
  | cons a t ih =>
    by_cases hp : p a = true
    · rw [findOne, List.find?_cons_of_pos _ hp] at h
      injection h with h
      subst h
      simp only [updateOne, hp, if_true]
      rw [findOne, List.find?_cons_of_pos _ (hf _ hp)]
    · have hp' : p a = false := Bool.eq_false_iff.mpr hp
      rw [findOne, List.find?_cons_of_neg _ (by simp [hp'])] at h
      simp only [updateOne, hp', Bool.false_eq_true, if_false]
      rw [findOne, List.find?_cons_of_neg _ (by simp [hp'])]
      exact ih h

theorem mem_updateOne_of_neg {α : Type} {p : α → Bool} {f : α → α} {l : List α} {a : α}
    (ha : a ∈ l) (hp : p a = false) : a ∈ updateOne p f l := by
  induction l with
  | nil => simp at ha
  | cons b t ih =>
    rcases List.mem_cons.mp ha with rfl | hmem
    · simp [updateOne, hp]
    · by_cases hb : p b = true
      · simp only [updateOne, hb, if_true]
        exact List.mem_cons_of_mem _ hmem
      · simp only [updateOne, Bool.eq_false_iff.mpr hb, Bool.false_eq_true, if_false]
        exact List.mem_cons_of_mem _ (ih hmem)

/-! ## Regex versus substring -/

theorem litAccept_iff (p l : List Char) : litAccept p l = true ↔ ∃ t, l = p ++ t := by
  induction p generalizing l with
  | nil =>
    simp only [litAccept, List.nil_append, true_iff]
    exact ⟨l, rfl⟩
  | cons a ps ih =>
    cases l with
    | nil =>
      simp only [litAccept, Bool.false_eq_true, false_iff]
      rintro ⟨t, ht⟩
      exact List.cons_ne_nil _ _ ht.symm
    | cons c cs =>
      simp only [litAccept, Bool.and_eq_true, beq_iff_eq, ih, List.cons_append,
        List.cons.injEq]
      constructor
      · rintro ⟨rfl, t, rfl⟩
        exact ⟨t, rfl, rfl⟩
      · rintro ⟨t, rfl, rfl⟩
        exact ⟨rfl, t, rfl⟩

theorem litSearch_iff (p l : List Char) :
    litSearch p l = true ↔ ∃ pre post, l = pre ++ p ++ post := by
  induction l with
  | nil =>
    rw [litSearch, litAccept_iff]
    constructor
    · rintro ⟨t, ht⟩
      exact ⟨[], t, by simpa using ht⟩
    · rintro ⟨pre, post, h⟩
      rcases List.append_eq_nil.mp (List.append_eq_nil.mp h.symm).1 with ⟨h1, h2⟩
      exact ⟨[], by simp [h2]⟩
  | cons c cs ih =>
    rw [litSearch, Bool.or_eq_true, litAccept_iff, ih]
    constructor
    · rintro (⟨t, ht⟩ | ⟨pre, post, h⟩)
      · exact ⟨[], t, by simpa using ht⟩
      · exact ⟨c :: pre, post, by simp [h]⟩
    · rintro ⟨pre, post, h⟩
      cases pre with
      | nil => exact Or.inl ⟨post, by simpa using h⟩
      | cons d pre' =>
        rw [List.cons_append, List.cons_append, List.cons.injEq] at h
        exact Or.inr ⟨pre', post, h.2⟩

theorem pcreAccept_eq_litAccept {p : List Char} (hp : '.' ∉ p) (l : List Char) :
    pcreAccept p l = litAccept p l := by
  induction p generalizing l with
  | nil => cases l <;> rfl
  | cons a ps ih =>
    have ha : (a == '.') = false := by
      refine beq_eq_false_iff_ne.mpr (fun h => hp ?_)
      rw [h]
      exact List.mem_cons_self _ _
    have hps : '.' ∉ ps := fun h => hp (List.mem_cons_of_mem _ h)
    cases l with
    | nil => rfl
    | cons c cs =>
      show ((a == '.' || a == c) && pcreAccept ps cs) = (a == c && litAccept ps cs)
      rw [ha, Bool.false_or, ih hps]

theorem pcreSearch_eq_litSearch {p : List Char} (hp : '.' ∉ p) (l : List Char) :
    pcreSearch p l = litSearch p l := by
  induction l with
  | nil => exact pcreAccept_eq_litAccept hp []
  | cons c cs ih =>
    show (pcreAccept p (c :: cs) || pcreSearch p cs) = (litAccept p (c :: cs) || litSearch p cs)
    rw [pcreAccept_eq_litAccept hp, ih]

/-- On metacharacter-free patterns, the modelled Mongo caseless regex match is exactly
case-insensitive substring occurrence. -/
theorem regexMatchCI_iff_substr {q s : String} (hq : regexLiteral q = true) :
    regexMatchCI q s = true ↔ IsSubstrCI q s := by
  have hdot : '.' ∉ lowerStr q := by
    intro hmem
    have h1 := List.all_eq_true.mp hq _ hmem
    have h2 : pcreMeta.contains '.' = true := by decide
    rw [h2] at h1
    simp at h1
  rw [regexMatchCI, pcreSearch_eq_litSearch hdot, litSearch_iff]
  exact Iff.rfl

/-! ## Query conditions against the amended predicate -/

theorem searchCond_iff (search : Option String) (s : Student) :
    searchCond search s = true ↔
      ∀ q, search = some q → q ≠ "" →
        (regexMatchCI q s.nama = true ∨ regexMatchCI q s.nim = true ∨
          regexMatchCI q s.email = true) := by
  cases search with
  | none => simp [searchCond]
  | some q =>
    by_cases hq : q = ""
    · subst hq
      have he : ("" : String).isEmpty = true := by decide
      simp [searchCond, he]
    · have hq' : q.isEmpty = false := by
        cases h : q.isEmpty
        · rfl
        · exact absurd ((String.isEmpty_iff q).mp h) hq
      simp [searchCond, hq', hq, or_assoc]

theorem programStudiCond_iff (program_studi : Option String) (s : Student) :
    programStudiCond program_studi s = true ↔
      ∀ q, program_studi = some q → q ≠ "" → regexMatchCI q s.program_studi = true := by
  cases program_studi with
  | none => simp [programStudiCond]
  | some q =>
    by_cases hq : q = ""
    · subst hq
      have he : ("" : String).isEmpty = true := by decide
      simp [programStudiCond, he]
    · have hq' : q.isEmpty = false := by
        cases h : q.isEmpty
        · rfl
        · exact absurd ((String.isEmpty_iff q).mp h) hq
      simp [programStudiCond, hq', hq]

theorem angkatanCond_iff (angkatan : Option Int) (s : Student) :
    angkatanCond angkatan s = true ↔
      ∀ v, angkatan = some v → v ≠ 0 → s.angkatan = v := by
  cases angkatan with
  | none => simp [angkatanCond]
  | some v =>
    by_cases hv : v = 0
    · subst hv
      simp [angkatanCond]
    · simp [angkatanCond, hv]

/-- Bridge for the counterexample: the case-insensitive substring relation is the
literal search on the case-folded strings. -/
theorem IsSubstrCI_iff_litSearch (needle hay : String) :
    IsSubstrCI needle hay ↔ litSearch (lowerStr needle) (lowerStr hay) = true :=
  (litSearch_iff _ _).symm

/-- An empty update payload provides no field at all. -/
theorem hasAnyField_false_iff (d : StudentUpdate) :
    hasAnyField d = false ↔
      d.nim = none ∧ d.nama = none ∧ d.email = none ∧
        d.program_studi = none ∧ d.angkatan = none := by
  rcases d with ⟨n1, n2, n3, n4, n5⟩
  cases n1 <;> cases n2 <;> cases n3 <;> cases n4 <;> cases n5 <;> simp [hasAnyField]

theorem findOne_append_of_none {α : Type} {p : α → Bool} {l1 : List α} (l2 : List α)
    (h : findOne p l1 = none) : findOne p (l1 ++ l2) = findOne p l2 := by
  induction l1 with
  | nil => rfl
  | cons a t ih =>
    cases hp : p a with
    | true =>
      rw [findOne, List.find?_cons_of_pos _ hp] at h
      exact absurd h (by simp)
    | false =>
      rw [findOne, List.find?_cons_of_neg _ (by simp [hp])] at h
      rw [List.cons_append, findOne, List.find?_cons_of_neg _ (by simp [hp])]
      exact ih h

/-- Keys serialized for any `User` response. -/
theorem user_fields_keys (u : User) :
    (User.fields u).map Prod.fst = ["id", "email", "name", "role", "created_at"] := rfl

/-- Keys of any stored user document. -/
theorem userDoc_fields_keys (d : UserDoc) :
    (UserDoc.fields d).map Prod.fst
      = ["id", "email", "name", "role", "created_at", "password_hash"] := rfl

/-! ## Claim theorems -/

/-- C1: for every role string supplied in the registration body, `register` persists a
user whose role equals exactly that string — there is no membership check against the
admin/user enumeration — and a user registered with role "admin" passes
`require_admin`, the gate of every admin-gated operation. -/
theorem register_persists_any_role (hash : String → String) (newId : String) (now : Nat)
    (user_data : UserRegister) (db : DB)
    (hfresh : findOne (fun d => d.email == user_data.email) db.users = none) :
    ∃ pub db', register hash newId now user_data db = .ok (pub, db') ∧
      pub.role = user_data.role ∧
      ∃ doc ∈ db'.users, doc.email = user_data.email ∧ doc.role = user_data.role ∧
        (user_data.role = "admin" → require_admin doc = .ok doc) := by
  simp only [register, hfresh]
  refine ⟨_, _, rfl, rfl, _,
    List.mem_append_right _ (List.mem_singleton_self _), rfl, rfl, fun h => ?_⟩
  simp [require_admin, h]

/-- Witness for C1 at a concrete input: an unauthenticated registration with
role "admin" on an empty store. -/
theorem register_persists_any_role_wit :
    ∃ pub db', register (fun _ => "H") "u9" 5
        { email := "eve@x.io", password := "pw", name := "Eve", role := "admin" }
        ⟨[], []⟩ = .ok (pub, db') ∧
      pub.role = "admin" ∧
      ∃ doc ∈ db'.users, doc.email = "eve@x.io" ∧ doc.role = "admin" ∧
        ("admin" = "admin" → require_admin doc = .ok doc) :=
  register_persists_any_role (fun _ => "H") "u9" 5
    { email := "eve@x.io", password := "pw", name := "Eve", role := "admin" } ⟨[], []⟩ rfl

/-- C6: a non-admin actor gets 403 Forbidden from `create_student`, `update_student`
and `delete_student` for every payload — even an invalid one (`none`) — and
`require_admin` passes an admin identity through unchanged. -/
theorem write_routes_require_admin (u : UserDoc) (h : u.role ≠ "admin") :
    (∀ clk newId body db, create_student clk newId body u db
        = .error ⟨403, "Admin access required"⟩) ∧
    (∀ now student_id body db, update_student now student_id body u db
        = .error ⟨403, "Admin access required"⟩) ∧
    (∀ student_id db, delete_student student_id u db
        = .error ⟨403, "Admin access required"⟩) ∧
    (∀ v : UserDoc, v.role = "admin" → require_admin v = .ok v) := by
  have hb : (u.role == "admin") = false := beq_eq_false_iff_ne.mpr h
  refine ⟨fun clk newId body db => ?_, fun now student_id body db => ?_,
    fun student_id db => ?_, fun v hv => ?_⟩
  · simp [create_student, require_admin, hb]
  · simp [update_student, require_admin, hb]
  · simp [delete_student, require_admin, hb]
  · simp [require_admin, hv]

/-- Witness for C6: the role-"user" actor is rejected on all three write routes, here
with invalid bodies, and the role-"admin" actor passes the gate. -/
theorem write_routes_require_admin_wit :
    create_student (fun i => i) "s9" none plainDoc ⟨[], []⟩
      = .error ⟨403, "Admin access required"⟩ ∧
    update_student 0 "s1" none plainDoc ⟨[], []⟩
      = .error ⟨403, "Admin access required"⟩ ∧
    delete_student "s1" plainDoc ⟨[], []⟩ = .error ⟨403, "Admin access required"⟩ ∧
    require_admin adminDoc = .ok adminDoc :=
  ⟨(write_routes_require_admin plainDoc (by decide)).1 (fun i => i) "s9" none ⟨[], []⟩,
   (write_routes_require_admin plainDoc (by decide)).2.1 0 "s1" none ⟨[], []⟩,
   (write_routes_require_admin plainDoc (by decide)).2.2.1 "s1" ⟨[], []⟩,
   (write_routes_require_admin plainDoc (by decide)).2.2.2 adminDoc rfl⟩

/-- C7: every login failure — unknown email as well as failed password verification —
returns the identical error, status 401 with detail "Invalid email or password", so the
response does not reveal which check failed. -/
theorem login_uniform_error (verify : String → String → Bool) (key : String) (now : Nat)
    (user_data : UserLogin) (db : DB) :
    (∀ e, login verify key now user_data db = .error e →
        e = ⟨401, "Invalid email or password"⟩) ∧
    (findOne (fun d => d.email == user_data.email) db.users = none →
        login verify key now user_data db = .error ⟨401, "Invalid email or password"⟩) ∧
    (∀ doc, findOne (fun d => d.email == user_data.email) db.users = some doc →
        verify user_data.password doc.password_hash = false →
        login verify key now user_data db
          = .error ⟨401, "Invalid email or password"⟩) := by
  refine ⟨?_, ?_, ?_⟩
  · intro e he
    unfold login at he
    cases hf : findOne (fun d => d.email == user_data.email) db.users with
    | none =>
      rw [hf] at he
      simp only [Except.error.injEq] at he
      exact he.symm
    | some doc =>
      rw [hf] at he
      cases hv : verify user_data.password doc.password_hash with
      | false =>
        simp only [hv, Bool.not_false, if_true, Except.error.injEq] at he
        exact he.symm
      | true => simp [hv] at he
  · intro hf
    unfold login
    rw [hf]
  · intro doc hf hv
    unfold login
    rw [hf]
    simp [hv]

/-- Witness for C7: with one stored user, a login under an unknown email and a login
under the stored email with a failing password verifier produce the same error. -/
theorem login_uniform_error_wit :
    login (fun _ _ => false) "k" 0 ⟨"nobody@x.io", "pw"⟩ ⟨[plainDoc], []⟩
      = .error ⟨401, "Invalid email or password"⟩ ∧
    login (fun _ _ => false) "k" 0 ⟨"user@campus.io", "pw"⟩ ⟨[plainDoc], []⟩
      = .error ⟨401, "Invalid email or password"⟩ ∧
    (⟨401, "Invalid email or password"⟩ : HTTPError)
      = ⟨401, "Invalid email or password"⟩ :=
  ⟨(login_uniform_error (fun _ _ => false) "k" 0 ⟨"nobody@x.io", "pw"⟩ ⟨[plainDoc], []⟩).2.1
      (by decide),
   (login_uniform_error (fun _ _ => false) "k" 0 ⟨"user@campus.io", "pw"⟩
      ⟨[plainDoc], []⟩).2.2 plainDoc (by decide) rfl,
   (login_uniform_error (fun _ _ => false) "k" 0 ⟨"nobody@x.io", "pw"⟩ ⟨[plainDoc], []⟩).1
      ⟨401, "Invalid email or password"⟩ rfl⟩

/-- C8: no API response carries the password hash: the `User` value serialized by
`register`, `login` and `get_me` has no "password_hash" key, even though the document
`register` persists does contain that key. -/
theorem responses_exclude_password_hash :
    (∀ (hash : String → String) newId now user_data db pub db',
        register hash newId now user_data db = .ok (pub, db') →
          "password_hash" ∉ (User.fields pub).map Prod.fst ∧
          ∃ doc ∈ db'.users, "password_hash" ∈ (UserDoc.fields doc).map Prod.fst) ∧
    (∀ (verify : String → String → Bool) key now user_data db tok,
        login verify key now user_data db = .ok tok →
          "password_hash" ∉ (User.fields tok.user).map Prod.fst) ∧
    (∀ d : UserDoc, "password_hash" ∉ (User.fields (get_me d)).map Prod.fst) := by
  refine ⟨?_, ?_, ?_⟩
  · intro hash newId now user_data db pub db' he
    cases hf : findOne (fun d => d.email == user_data.email) db.users with
    | some d =>
      simp only [register, hf] at he
      exact Except.noConfusion he
    | none =>
      simp only [register, hf, Except.ok.injEq, Prod.mk.injEq] at he
      obtain ⟨hpub, hdb⟩ := he
      subst hdb
      refine ⟨?_, _, List.mem_append_right _ (List.mem_singleton_self _), ?_⟩
      · rw [user_fields_keys]
        decide
      · rw [userDoc_fields_keys]
        decide
  · intro verify key now user_data db tok he
    rw [user_fields_keys]
    decide
  · intro d
    rw [user_fields_keys]
    decide

/-- Witness for C8: a concrete successful registration, a concrete successful login,
and a `get_me` call, each with a hash-free serialized user. -/
theorem responses_exclude_password_hash_wit :
    ("password_hash" ∉
        (User.fields ⟨"u9", "eve@x.io", "Eve", "user", 5⟩).map Prod.fst ∧
      ∃ doc ∈ ({ users := [⟨"u9", "eve@x.io", "Eve", "user", 5, "H"⟩],
                 students := [] } : DB).users,
        "password_hash" ∈ (UserDoc.fields doc).map Prod.fst) ∧
    ("password_hash" ∉
        (User.fields (TokenResp.user
          ⟨.signed ⟨some "user@campus.io", 86400⟩ "k", "bearer",
            ⟨"u2", "user@campus.io", "Us Er", "user", 0⟩⟩)).map Prod.fst) ∧
    "password_hash" ∉ (User.fields (get_me plainDoc)).map Prod.fst :=
  ⟨responses_exclude_password_hash.1 (fun _ => "H") "u9" 5
      ⟨"eve@x.io", "pw", "Eve", "user"⟩ ⟨[], []⟩
      ⟨"u9", "eve@x.io", "Eve", "user", 5⟩
      { users := [⟨"u9", "eve@x.io", "Eve", "user", 5, "H"⟩], students := [] } rfl,
   responses_exclude_password_hash.2.1 (fun _ _ => true) "k" 0
      ⟨"user@campus.io", "pw"⟩ ⟨[plainDoc], []⟩
      ⟨.signed ⟨some "user@campus.io", 86400⟩ "k", "bearer",
        ⟨"u2", "user@campus.io", "Us Er", "user", 0⟩⟩ rfl,
   responses_exclude_password_hash.2.2 plainDoc⟩

/-- C9: registering an email that already has a user record fails with the 400 Conflict
error, and a fresh registration followed by a second one under the same email leaves
exactly one new record for that email and fails the second time. -/
theorem register_conflict_on_duplicate :
    (∀ (hash : String → String) newId now (user_data : UserRegister) (db : DB),
        (∃ d ∈ db.users, d.email = user_data.email) →
        register hash newId now user_data db
          = .error ⟨400, "Email already registered"⟩) ∧
    (∀ (hash hash2 : String → String) newId newId2 now now2
        (user_data user_data2 : UserRegister) (db : DB),
        findOne (fun d => d.email == user_data.email) db.users = none →
        user_data2.email = user_data.email →
        ∃ pub db', register hash newId now user_data db = .ok (pub, db') ∧
          (db'.users.filter (fun d => d.email == user_data.email)).length
            = (db.users.filter (fun d => d.email == user_data.email)).length + 1 ∧
          register hash2 newId2 now2 user_data2 db'
            = .error ⟨400, "Email already registered"⟩) := by
  constructor
  · intro hash newId now user_data db hdup
    cases hf : findOne (fun d => d.email == user_data.email) db.users with
    | some d => simp [register, hf]
    | none =>
      obtain ⟨d, hd, he⟩ := hdup
      have := List.find?_eq_none.mp hf d hd
      simp [he] at this
  · intro hash hash2 newId newId2 now now2 user_data user_data2 db hf h2
    simp only [register, hf]
    refine ⟨_, _, rfl, ?_, ?_⟩
    · rw [List.filter_append]
      simp
    · simp only [register, h2]
      rw [findOne_append_of_none _ hf]
      simp [findOne]

/-- Witness for C9: registering "eve@x.io" twice on an initially empty store. -/
theorem register_conflict_on_duplicate_wit :
    ∃ pub db', register (fun _ => "H") "u9" 5
        ⟨"eve@x.io", "pw", "Eve", "user"⟩ ⟨[], []⟩ = .ok (pub, db') ∧
      (db'.users.filter (fun d => d.email == "eve@x.io")).length
        = (([] : List UserDoc).filter (fun d => d.email == "eve@x.io")).length + 1 ∧
      register (fun _ => "G") "u10" 6 ⟨"eve@x.io", "pw2", "Eve Two", "user"⟩ db'
        = .error ⟨400, "Email already registered"⟩ :=
  register_conflict_on_duplicate.2 (fun _ => "H") (fun _ => "G") "u9" "u10" 5 6
    ⟨"eve@x.io", "pw", "Eve", "user"⟩ ⟨"eve@x.io", "pw2", "Eve Two", "user"⟩
    ⟨[], []⟩ rfl rfl

/-- C2 (code bug): issuance sets the absolute expiration 24 hours after issuance, and a
token issued at T is accepted at T+1 and rejected as expired past T+24h with the 401
expiry error; but any signature/format failure, instead of the claimed 401
InvalidCredential, hits the `except jwt.JWTError` clause — an attribute PyJWT does not
define — so an AttributeError escapes the handler. -/
theorem decode_token_invalid_unhandled :
    create_access_token "k" 0 "a@b.io" = .signed ⟨some "a@b.io", 86400⟩ "k" ∧
    decode_token "k" 1 (create_access_token "k" 0 "a@b.io") = .ok ⟨some "a@b.io", 86400⟩ ∧
    decode_token "k" 86401 (create_access_token "k" 0 "a@b.io")
      = .httpError ⟨401, "Token has expired"⟩ ∧
    decode_token "k" 0 (.garbage "not-a-jwt")
      = .unhandled "AttributeError: module jwt has no attribute JWTError" ∧
    decode_token "k" 0 (.signed ⟨some "a@b.io", 86400⟩ "other-key")
      = .unhandled "AttributeError: module jwt has no attribute JWTError" :=
  ⟨rfl, by decide, by decide, rfl, by decide⟩

/-- C3 counterexample: the search string is handed to the store as a regular expression,
not a substring, and `angkatan=0` is dropped by truthiness. The pattern "a.c" returns
the student named "abc" although "a.c" is a case-insensitive substring of none of nama,
nim, email; and `listStudents(angkatan=0)` returns a 2021 record. -/
theorem get_students_claim_cex :
    (get_students (some "a.c") none none adminDoc ⟨[], [stAbc]⟩ = [stAbc] ∧
      ¬ IsSubstrCI "a.c" stAbc.nama ∧ ¬ IsSubstrCI "a.c" stAbc.nim ∧
      ¬ IsSubstrCI "a.c" stAbc.email) ∧
    (get_students none none (some 0) adminDoc ⟨[], [stAlice]⟩ = [stAlice] ∧
      stAlice.angkatan = 2021 ∧ (2021 : Int) ≠ 0) := by
  refine ⟨⟨by decide, ?_, ?_, ?_⟩, by decide, rfl, by decide⟩ <;>
    rw [IsSubstrCI_iff_litSearch] <;> decide

/-- C3 (amended): a record is returned by `get_students` iff it is among the first 1000
store records satisfying all the given non-degenerate filters, where a non-empty search
string must match nama OR nim OR email as a case-insensitive regular expression (for
search strings without regex metacharacters this is exactly case-insensitive substring
match), a non-empty program_studi must regex-match likewise, a nonzero angkatan must
match by exact integer equality, and empty-string or zero filters are ignored. -/
theorem get_students_filter_semantics :
    (∀ search program_studi angkatan u (db : DB),
        get_students search program_studi angkatan u db
          = (db.students.filter (fun s =>
              searchCond search s && programStudiCond program_studi s &&
                angkatanCond angkatan s)).take 1000) ∧
    (∀ search program_studi angkatan (s : Student),
        (searchCond search s && programStudiCond program_studi s &&
            angkatanCond angkatan s) = true
          ↔ AmendedMatch search program_studi angkatan s) ∧
    (∀ q s, regexLiteral q = true → (regexMatchCI q s = true ↔ IsSubstrCI q s)) := by
  refine ⟨fun _ _ _ _ _ => rfl, ?_, fun q s hq => regexMatchCI_iff_substr hq⟩
  intro search program_studi angkatan s
  rw [Bool.and_eq_true, Bool.and_eq_true, AmendedMatch, searchCond_iff,
    programStudiCond_iff, angkatanCond_iff, and_assoc]

/-- Witness for C3 at concrete inputs: the spec's own example — searching "ali" over
the Alice/Bob store returns exactly the Alice record, "ali" has no metacharacter, and
its regex match on "Alice" coincides with substring occurrence. -/
theorem get_students_filter_semantics_wit :
    get_students (some "ali") none none adminDoc ⟨[], [stAlice, stBob]⟩
      = (([stAlice, stBob] : List Student).filter (fun s =>
          searchCond (some "ali") s && programStudiCond none s &&
            angkatanCond none s)).take 1000 ∧
    (regexMatchCI "ali" "Alice" = true ↔ IsSubstrCI "ali" "Alice") :=
  ⟨get_students_filter_semantics.1 (some "ali") none none adminDoc ⟨[], [stAlice, stBob]⟩,
   get_students_filter_semantics.2.2 "ali" "Alice" (by decide)⟩

/-- C4: a partial update applies exactly the provided (non-absent) fields, leaves the
absent fields and `created_at`/`id` untouched, refreshes `updated_at` to the current
instant exactly when at least one field is provided, and with an empty payload performs
no write and returns the record unchanged. -/
theorem update_student_partial_frame (now : Nat) (student_id : String)
    (student_data : StudentUpdate) (u : UserDoc) (db : DB) (s : Student)
    (hadmin : u.role = "admin")
    (hfind : findOne (fun t => t.id == student_id) db.students = some s) :
    ∃ s' db', update_student now student_id (some student_data) u db = .ok (s', db') ∧
      s'.id = s.id ∧ s'.created_at = s.created_at ∧
      s'.nim = student_data.nim.getD s.nim ∧
      s'.nama = student_data.nama.getD s.nama ∧
      s'.email = student_data.email.getD s.email ∧
      s'.program_studi = student_data.program_studi.getD s.program_studi ∧
      s'.angkatan = student_data.angkatan.getD s.angkatan ∧
      s'.updated_at = (if hasAnyField student_data then now else s.updated_at) ∧
      (hasAnyField student_data = false → s' = s ∧ db' = db) := by
  have hra : require_admin u = .ok u := by simp [require_admin, hadmin]
  cases h : hasAnyField student_data with
  | true =>
    have hupd := findOne_updateOne (p := fun t => t.id == student_id)
      (f := applyUpdate student_data now) (fun a ha => ha) hfind
    simp only [update_student, hra, hfind, h, if_true, hupd]
    refine ⟨_, _, rfl, rfl, rfl, rfl, rfl, rfl, rfl, rfl, rfl, fun hc => ?_⟩
    exact Bool.noConfusion hc
  | false =>
    obtain ⟨e1, e2, e3, e4, e5⟩ := (hasAnyField_false_iff student_data).mp h
    simp only [update_student, hra, hfind, h, Bool.false_eq_true, if_false]
    exact ⟨s, db, rfl, rfl, rfl, by rw [e1]; rfl, by rw [e2]; rfl, by rw [e3]; rfl,
      by rw [e4]; rfl, by rw [e5]; rfl, rfl, fun _ => ⟨rfl, rfl⟩⟩

/-- Witness for C4: updating only `nama` of the stored Alice record changes exactly
`nama` and `updated_at`. -/
theorem update_student_partial_frame_wit :
    ∃ s' db', update_student 9 "s1" (some { nama := some "New" }) adminDoc
        ⟨[], [stAlice]⟩ = .ok (s', db') ∧
      s'.id = stAlice.id ∧ s'.created_at = stAlice.created_at ∧
      s'.nim = stAlice.nim ∧ s'.nama = "New" ∧ s'.email = stAlice.email ∧
      s'.program_studi = stAlice.program_studi ∧ s'.angkatan = stAlice.angkatan ∧
      s'.updated_at = 9 ∧
      (hasAnyField { nama := some "New" } = false → s' = stAlice ∧ db' = ⟨[], [stAlice]⟩) :=
  update_student_partial_frame 9 "s1" { nama := some "New" } adminDoc
    ⟨[], [stAlice]⟩ stAlice rfl rfl

/-- C5 counterexample: with a clock that advances between the two `datetime.now`
default-factory reads of the `Student` constructor, the created record has
`created_at = 0` but `updated_at = 1`: the two fields are not the same instant. -/
theorem create_student_same_instant_cex :
    create_student (fun i => i) "s9" (some ⟨"N9", "Nina", "nina@x.io", "TI", 2022⟩)
        adminDoc ⟨[], []⟩ = .ok (stNina, ⟨[], [stNina]⟩) ∧
    stNina.created_at ≠ stNina.updated_at :=
  ⟨rfl, by decide⟩

/-- C5 (amended): a successful `create_student` returns and persists one record whose
`created_at` is the first clock reading taken at creation and whose `updated_at` is the
second; the two coincide exactly when the clock does not advance between the reads. -/
theorem create_student_timestamps (clk : Nat → Nat) (newId : String)
    (student_data : StudentCreate) (u : UserDoc) (db : DB)
    (hadmin : u.role = "admin")
    (hnim : findOne (fun s => s.nim == student_data.nim) db.students = none) :
    ∃ st db', create_student clk newId (some student_data) u db = .ok (st, db') ∧
      st.created_at = clk 0 ∧ st.updated_at = clk 1 ∧
      (clk 0 = clk 1 → st.created_at = st.updated_at) ∧
      db'.students = db.students ++ [st] := by
  have hra : require_admin u = .ok u := by simp [require_admin, hadmin]
  simp only [create_student, hra, hnim]
  exact ⟨_, _, rfl, rfl, rfl, fun h => h, rfl⟩

/-- Witness for C5: with a constant clock the two readings agree. -/
theorem create_student_timestamps_wit :
    ∃ st db', create_student (fun _ => 7) "s7" (some ⟨"N7", "Greg", "greg@x.io", "SI", 2023⟩)
        adminDoc ⟨[], []⟩ = .ok (st, db') ∧
      st.created_at = 7 ∧ st.updated_at = 7 ∧ (7 = 7 → st.created_at = st.updated_at) ∧
      db'.students = [] ++ [st] :=
  create_student_timestamps (fun _ => 7) "s7" ⟨"N7", "Greg", "greg@x.io", "SI", 2023⟩
    adminDoc ⟨[], []⟩ rfl rfl

/-- C10: `update_student` runs no uniqueness check on nim: updating an existing student
to a nim already held by a different record succeeds and persists both records with the
same nim, breaking the invariant `create_student` enforces. -/
theorem update_student_nim_not_unique (now : Nat) (student_id : String) (n : String)
    (u : UserDoc) (db : DB) (s s2 : Student)
    (hadmin : u.role = "admin")
    (hfind : findOne (fun t => t.id == student_id) db.students = some s)
    (hs2 : s2 ∈ db.students) (hid : (s2.id == student_id) = false) (hnim : s2.nim = n) :
    ∃ s' db', update_student now student_id (some { nim := some n }) u db
        = .ok (s', db') ∧
      s'.nim = n ∧ s'.id = s.id ∧ s' ∈ db'.students ∧ s2 ∈ db'.students ∧
      s2.nim = n ∧ s'.id ≠ s2.id := by
  have hra : require_admin u = .ok u := by simp [require_admin, hadmin]
  have hupd := findOne_updateOne (p := fun t => t.id == student_id)
    (f := applyUpdate { nim := some n } now) (fun a ha => ha) hfind
  have h1 : s.id = student_id := by simpa using findOne_sat hfind
  have h2 : ¬ s2.id = student_id := by simpa using hid
  simp only [update_student, hra, hfind, hasAnyField, Option.isSome_some,
    Bool.true_or, if_true, hupd]
  refine ⟨_, _, rfl, rfl, rfl, findOne_mem hupd, mem_updateOne_of_neg hs2 hid, hnim, ?_⟩
  intro hcontra
  exact h2 (by rw [← hcontra]; exact h1)

/-- Witness for C10: updating Alice's nim to Bob's nim "B2" succeeds and leaves two
distinct records with nim "B2" in the store. -/
theorem update_student_nim_not_unique_wit :
    ∃ s' db', update_student 9 "s1" (some { nim := some "B2" }) adminDoc
        ⟨[], [stAlice, stBob]⟩ = .ok (s', db') ∧
      s'.nim = "B2" ∧ s'.id = stAlice.id ∧ s' ∈ db'.students ∧ stBob ∈ db'.students ∧
      stBob.nim = "B2" ∧ s'.id ≠ stBob.id :=
  update_student_nim_not_unique 9 "s1" "B2" adminDoc ⟨[], [stAlice, stBob]⟩
    stAlice stBob rfl rfl (by decide) (by decide) rfl

end StudentApp
